import Mathlib

/-!
# Verification of the dnslink TXT-record resolver

Shallow embedding of the resolution engine of the `webportal-dnslink-api`
repository: the record-classification regular expressions, the skylink /
sponsor extraction algorithm of `src/resolver.js`, the TXT lookup cache of
the `dnsResolveTxt` wrapper, and the base32 → base64 identifier
normalization.

Strings are modelled as Lean `String` (a list of characters); the
JavaScript regular expressions of the source are translated character class
by character class.  All definitions are executable.
-/

namespace DnslinkApi

/-! ## Character classes of the source regular expressions -/

/-- Line terminators of JavaScript regular expressions: `.` matches every
character except U+000A, U+000D, U+2028 and U+2029. -/
def isLineTerm (c : Char) : Bool :=
  c.toNat = 10 || c.toNat = 13 || c.toNat = 0x2028 || c.toNat = 0x2029

/-- Character class `[a-zA-Z0-9]` of `sponsorRegExp`. -/
def isAlnum (c : Char) : Bool :=
  (97 ≤ c.toNat && c.toNat ≤ 122)      -- a-z
    || (65 ≤ c.toNat && c.toNat ≤ 90)  -- A-Z
    || (48 ≤ c.toNat && c.toNat ≤ 57)  -- 0-9

/-- Character class `[a-z0-9]` of the 55-character (base32) alternative of
`skylinkMatcher`. -/
def isB32Char (c : Char) : Bool :=
  (97 ≤ c.toNat && c.toNat ≤ 122)      -- a-z
    || (48 ≤ c.toNat && c.toNat ≤ 57)  -- 0-9

/-- Character class `[a-zA-Z0-9-_]` of the 46-character (base64) alternative
of `skylinkMatcher`. -/
def isB64Char (c : Char) : Bool :=
  isAlnum c || c.toNat = 45 || c.toNat = 95  -- alphanumeric, `-`, `_`

/-! ## Markers of the record conventions -/

/-- The `dnslink=/skynet-ns/` marker that every skylink-convention record
begins with (`dnslinkNamespace = "skynet-ns"` in the source). -/
def dnslinkMarker : List Char := "dnslink=/skynet-ns/".data

/-- The `skynet-sponsor-key=` marker of sponsor-convention records
(`sponsorNamespace = "skynet-sponsor-key"`). -/
def sponsorMarker : List Char := "skynet-sponsor-key=".data

/-- `hint` constant interpolated into error messages by the source. -/
def hint : String :=
  "valid example: dnslink=/skynet-ns/3ACpC9Umme41zlWUgMQh1fw0sNwgWwyfDDhRQ9Sppz9hjQ"

/-- Drops `p` from the front of `s`, returning the remainder when `s`
begins with `p`. -/
def dropStart : List Char → List Char → Option (List Char)
  | [], s => some s
  | _ :: _, [] => none
  | p :: ps, c :: cs => if p = c then dropStart ps cs else none

/-! ## The classifier regular expressions

`dnslinkRegExp = /^dnslink=\/skynet-ns\/.+$/` and
`sponsorRegExp = /^skynet-sponsor-key=[a-zA-Z0-9]+$/`.  Both are anchored at
both ends; in JavaScript (without the `m` flag) `$` matches only at the very
end of the input and `.` excludes line terminators. -/

/-- `dnslinkRegExp.test record`: the record equals
`dnslink=/skynet-ns/<value>` with `<value>` a non-empty run of
non-line-terminator characters. -/
def dnslinkRegExpTest (s : String) : Bool :=
  match dropStart dnslinkMarker s.data with
  | some v => !v.isEmpty && v.all (fun c => !isLineTerm c)
  | none => false

/-- `sponsorRegExp.test record`: the record equals
`skynet-sponsor-key=<key>` with `<key>` a non-empty alphanumeric run. -/
def sponsorRegExpTest (s : String) : Bool :=
  match dropStart sponsorMarker s.data with
  | some k => !k.isEmpty && k.all isAlnum
  | none => false

/-! ## The extraction regular expressions

`skylinkMatcher = "[a-z0-9]{55}|[a-zA-Z0-9-_]{46}"`;
`dnslinkSkylinkRegExp = /^dnslink=\/skynet-ns\/(skylinkMatcher)/` and
`uriSkylinkRegExp = /^\/(?<skylink>skylinkMatcher)(?<path>\/.*)?/`.
Neither is anchored at the end. The alternation tries the 55-character
base32 class first, then the 46-character base64 class, both at the same
position. -/

/-- Matches `([a-z0-9]{55}|[a-zA-Z0-9-_]{46})` at the start of `v` and
returns the captured group. -/
def matchSkylinkValue (v : List Char) : Option (List Char) :=
  if (v.take 55).length = 55 && (v.take 55).all isB32Char then
    some (v.take 55)
  else if (v.take 46).length = 46 && (v.take 46).all isB64Char then
    some (v.take 46)
  else
    none

/-- `record.match(dnslinkSkylinkRegExp)`, returning capture group 1. -/
def dnslinkSkylinkMatch (s : String) : Option String :=
  ((dropStart dnslinkMarker s.data).bind matchSkylinkValue).map fun l => ⟨l⟩

/-- Named capture groups of a successful `uriSkylinkRegExp` match. -/
structure UriMatch where
  skylink : String
  path : Option String
deriving Repr, DecidableEq

/-- Part of the uri match after the leading `/`: the identifier
alternation, then optionally `(?<path>/.*)` — a slash followed by a greedy
run of non-line-terminator characters.  There is no end anchor. -/
def uriSkylinkMatchTail (rest : List Char) : Option UriMatch :=
  match matchSkylinkValue rest with
  | some sk =>
    match rest.drop sk.length with
    | '/' :: tail => some ⟨⟨sk⟩, some ⟨'/' :: tail.takeWhile (fun c => !isLineTerm c)⟩⟩
    | _ => some ⟨⟨sk⟩, none⟩
  | none => none

/-- `uri.match(uriSkylinkRegExp)`: a leading `/` followed by the rest of
the pattern. -/
def uriSkylinkMatch (u : String) : Option UriMatch :=
  match u.data with
  | '/' :: rest => uriSkylinkMatchTail rest
  | _ => none

/-- `uri ? uri.match(uriSkylinkRegExp) : null` — an absent or empty (falsy)
uri is not matched at all. -/
def uriMatchOf (uri : Option String) : Option UriMatch :=
  match uri with
  | some u => if u.isEmpty then none else uriSkylinkMatch u
  | none => none

/-! ## Error taxonomy

The source declares one exception class per error kind; here they are the
constructors of a single type.  `resolutionError` is the `ResolutionError`
raised by the `dnsResolveTxt` cache wrapper. -/

inductive ResolveError where
  | resolutionError (msg : String)
  | noSkynetDNSLinksFoundError (msg : String)
  | multipleSkylinksError (msg : String)
  | invalidSkylinkError (msg : String)
  | multipleSponsorKeyRecordsError (msg : String)
deriving Repr, DecidableEq

/-! ## Identifier normalization (`convertSkylinkToBase64`)

Modelled from the spec: `convertSkylinkToBase64` is imported from the
external `skynet-js` package, which is not part of this repository.  The
spec describes it as the base32 → base64 conversion of a 55-character
lowercase-base32 identifier into the canonical 46-character URL-safe-base64
form: the 55 base-32 digits (alphabet `0-9a-v`) carry 275 bits, of which
the leading 272 bits form the 34-byte payload, re-emitted as 46 base-64
digits (alphabet `A-Za-z0-9-_`) with four zero padding bits. -/

/-- Value of one lowercase base32 digit (alphabet `0123456789abcdefghijklmnopqrstuv`);
characters outside the alphabet are given value 0. -/
def b32CharVal (c : Char) : Nat :=
  if 48 ≤ c.toNat ∧ c.toNat ≤ 57 then c.toNat - 48
  else if 97 ≤ c.toNat ∧ c.toNat ≤ 118 then c.toNat - 87
  else 0

/-- Big-endian value of a digit string. -/
def valueOfDigits (base : Nat) : List Nat → Nat
  | [] => 0
  | d :: ds => d * base ^ ds.length + valueOfDigits base ds

/-- The 275-bit value carried by a 55-character base32 identifier. -/
def base32Value (s : List Char) : Nat :=
  valueOfDigits 32 (s.map b32CharVal)

/-- The `k` big-endian base-`base` digits of `n`. -/
def natDigitsBE (base : Nat) : Nat → Nat → List Nat
  | 0, _ => []
  | k + 1, n => natDigitsBE base k (n / base) ++ [n % base]

/-- The URL-safe base64 digit alphabet. -/
def base64Chars : List Char :=
  "ABCDEFGHIJKLMNOPQRSTUVWXYZabcdefghijklmnopqrstuvwxyz0123456789-_".data

/-- Character of one base64 digit. -/
def b64CharOf (n : Nat) : Char :=
  base64Chars.getD (n % 64) 'A'

/-- The 46 base64 digit characters of the converted identifier. -/
def convertedDigits (s : String) : List Char :=
  (natDigitsBE 64 46 (base32Value s.data / 8 * 16)).map b64CharOf

/-- Modelled from the spec: the base32 → base64 skylink conversion of the
external `skynet-js` package.  The leading 272 of the 275 bits are padded
with four zero bits and written as 46 base-64 digits. -/
def convertSkylinkToBase64 (s : String) : String :=
  ⟨convertedDigits s⟩

/-- `if (response.skylink?.length === 55) convertSkylinkToBase64(...)` of
`resolve`. -/
def normalizeSkylink (sk : String) : String :=
  if sk.length = 55 then convertSkylinkToBase64 sk else sk

/-! ## The resolver (`Resolver.resolve` of `src/resolver.js`) -/

/-- Result object of a successful resolution. -/
structure ResolutionResult where
  skylink : Option String
  sponsor : Option String
  path : Option String
deriving Repr, DecidableEq

/-- `record.substring(record.indexOf("=") + 1)`: the part after the first
`=`, or the whole string when there is none. -/
def dropThroughEq : List Char → Option (List Char)
  | [] => none
  | c :: rest => if c = '=' then some rest else dropThroughEq rest

/-- Sponsor value extracted from a sponsor record. -/
def sponsorValue (r : String) : String :=
  ⟨(dropThroughEq r.data).getD r.data⟩

/-- Template-literal rendering of an optional field: JavaScript
interpolates `undefined` as the string `"undefined"`. -/
def jsShow (o : Option String) : String :=
  o.getD "undefined"

/-- The logger line built by `resolve`:
`[skylink clause, sponsor clause].filter(Boolean).join(" | ")` prefixed by
`domain => `.  Both clauses are non-empty strings, hence truthy, so
`filter(Boolean)` keeps both. -/
def logLine (domain : String) (skylink sponsor : Option String) : String :=
  let info := [("skylink: " ++ jsShow skylink), ("sponsor: " ++ jsShow sponsor)]
    |>.filter (fun s => !s.isEmpty) |> (String.intercalate " | ")
  domain ++ " => " ++ info

/-- Skylink extraction of `resolve`: the single DNS record takes priority,
else the uri match, else no skylink; the second component is the `path`
field of the response (initialized to the raw uri). -/
def extractSkylinkAndPath (lookup : String) (dnslinkSkylinks : List String)
    (matchSkylinkUri : Option UriMatch) (uri : Option String) :
    Except ResolveError (Option String × Option String) :=
  match dnslinkSkylinks with
  | [dnslink] =>
    match dnslinkSkylinkMatch dnslink with
    | some sk => .ok (some sk, uri)
    | none => .error (.invalidSkylinkError
        ("TXT record with skynet dnslink for " ++ lookup ++ " contains invalid skylink - " ++ hint))
  | _ =>
    match matchSkylinkUri with
    | some m => .ok (some m.skylink, some (m.path.getD "/"))
    | none => .ok (none, uri)

/-- Tail of `resolve` once the cardinality checks have passed: extraction,
normalization, sponsor extraction and the log line. -/
def finishResolution (domain lookup : String) (dnslinkSkylinks dnslinkSponsors : List String)
    (matchSkylinkUri : Option UriMatch) (uri : Option String) :
    Except ResolveError (ResolutionResult × String) :=
  match extractSkylinkAndPath lookup dnslinkSkylinks matchSkylinkUri uri with
  | .error e => .error e
  | .ok (sk0, path) =>
    let skylink := sk0.map normalizeSkylink
    let sponsor := match dnslinkSponsors with
      | [r] => some (sponsorValue r)
      | _ => none
    .ok ({ skylink := skylink, sponsor := sponsor, path := path },
         logLine domain skylink sponsor)

/-- The record-classification and extraction part of `Resolver.resolve`,
applied to the TXT record groups returned by `dnsResolveTxt`.  On success
it returns the response object together with the logged line. -/
def resolveRecords (domain : String) (addresses : List (List String))
    (uri : Option String) : Except ResolveError (ResolutionResult × String) :=
  let lookup := "_dnslink." ++ domain
  let records := addresses.flatten
  let dnslinkSkylinks := records.filter dnslinkRegExpTest
  let dnslinkSponsors := records.filter sponsorRegExpTest
  let matchSkylinkUri := uriMatchOf uri
  if 1 < dnslinkSkylinks.length then
    .error (.multipleSkylinksError
      ("Multiple TXT records with valid skynet dnslink found for " ++ lookup ++ ", only one allowed"))
  else if 1 < dnslinkSponsors.length then
    .error (.multipleSponsorKeyRecordsError
      ("Multiple TXT records with valid sponsor key found for " ++ lookup ++ ", only one allowed"))
  else if dnslinkSkylinks.length = 0 ∧ dnslinkSponsors.length = 0 ∧ matchSkylinkUri = none then
    .error (.noSkynetDNSLinksFoundError
      ("TXT records for " ++ lookup ++ " found but none of them contained valid skynet dnslink - " ++ hint))
  else
    finishResolution domain lookup dnslinkSkylinks dnslinkSponsors matchSkylinkUri uri

/-! ## The TXT lookup cache (`dnsResolveTxt` wrapper)

The wrapper keeps an LRU cache of successful lookups (defaults: 5000
entries, 5-minute TTL).  The underlying `dns.resolveTxt` primitive is an
external collaborator, modelled as an oracle from lookup keys to outcomes;
time is an explicit `Nat` parameter.  Capacity eviction is not exercised by
the claims and is not modelled. -/

/-- Outcome of one upstream `dns.resolveTxt` query. -/
inductive DnsOutcome where
  | success (addresses : List (List String))
  | notFound
  | noData
  | otherFailure (msg : String)
deriving Repr, DecidableEq

/-- The failing outcomes. -/
def DnsOutcome.isFailure : DnsOutcome → Bool
  | .success _ => false
  | _ => true

/-- One cache entry: lookup key, record groups, expiry instant. -/
structure CacheEntry where
  key : String
  value : List (List String)
  expiresAt : Nat
deriving Repr, DecidableEq

/-- The cache is a map from lookup keys to entries. -/
abbrev CacheState := List CacheEntry

/-- `dnsCache.has(domain)` followed by `dnsCache.get(domain)`: a hit needs a
present, non-expired entry (`lru-cache` treats an entry as fresh while
`now - insertion ≤ ttl`). -/
def cacheFind (st : CacheState) (k : String) (now : Nat) :
    Option (List (List String)) :=
  match st.find? (fun e => e.key == k) with
  | some e => if now ≤ e.expiresAt then some e.value else none
  | none => none

/-- `dnsCache.set(domain, addresses)`: inserts with the configured TTL. -/
def cacheSet (st : CacheState) (k : String) (v : List (List String))
    (now ttl : Nat) : CacheState :=
  ⟨k, v, now + ttl⟩ :: st.filter (fun e => e.key ≠ k)

/-- Output of one `dnsResolveTxt` call: result, cache afterwards, and
whether an upstream query was issued. -/
structure DnsResolveOutput where
  result : Except ResolveError (List (List String))
  cache : CacheState
  queried : Bool
deriving Repr

/-- `dnsResolveTxt` of the cache wrapper: return a fresh cached value when
one exists, otherwise query upstream, caching only successful results. -/
def dnsResolveTxt (upstream : String → DnsOutcome) (ttl : Nat)
    (st : CacheState) (now : Nat) (domain : String) : DnsResolveOutput :=
  match cacheFind st domain now with
  | some v => ⟨.ok v, st, false⟩
  | none =>
    match upstream domain with
    | .success addresses =>
      ⟨.ok addresses, cacheSet st domain addresses now ttl, true⟩
    | .notFound =>
      ⟨.error (.resolutionError ("ENOTFOUND: " ++ domain ++ " TXT record doesn't exist")), st, true⟩
    | .noData =>
      ⟨.error (.resolutionError ("ENODATA: " ++ domain ++ " dns lookup returned no data")), st, true⟩
    | .otherFailure msg =>
      ⟨.error (.resolutionError ("Failed to fetch " ++ domain ++ " TXT record: " ++ msg)), st, true⟩

/-- Output of one full `Resolver.resolve` call. -/
structure ResolveOutput where
  result : Except ResolveError (ResolutionResult × String)
  cache : CacheState
  queried : Bool
deriving Repr

/-- `Resolver.resolve(domain, uri)`: fetch the TXT records for
`_dnslink.<domain>` through the cache, then classify and extract. -/
def resolve (upstream : String → DnsOutcome) (ttl : Nat) (st : CacheState)
    (now : Nat) (domain : String) (uri : Option String) : ResolveOutput :=
  let d := dnsResolveTxt upstream ttl st now ("_dnslink." ++ domain)
  match d.result with
  | .error e => ⟨.error e, d.cache, d.queried⟩
  | .ok addresses => ⟨resolveRecords domain addresses uri, d.cache, d.queried⟩

/-! ## Error-kind predicates -/

/-- Is the error the upstream-failure kind (`ResolutionError`)? -/
def ResolveError.isResolution : ResolveError → Bool
  | .resolutionError _ => true
  | _ => false

/-- A classification error: any error other than an upstream
`ResolutionError`. -/
def ResolveError.isClassification (e : ResolveError) : Bool :=
  !e.isResolution

/-- Does the outcome fail with `InvalidSkylinkError`? -/
def isInvalidSkylinkError : Except ResolveError (ResolutionResult × String) → Bool
  | .error (.invalidSkylinkError _) => true
  | _ => false

/-- Does the outcome fail with `NoSkynetDNSLinksFoundError`? -/
def isNoLinksError : Except ResolveError (ResolutionResult × String) → Bool
  | .error (.noSkynetDNSLinksFoundError _) => true
  | _ => false

/-- Does the outcome fail with `MultipleSkylinksError`? -/
def isMultipleSkylinksErr : Except ResolveError (ResolutionResult × String) → Bool
  | .error (.multipleSkylinksError _) => true
  | _ => false

/-- Does the outcome fail with `MultipleSponsorKeyRecordsError`? -/
def isMultipleSponsorErr : Except ResolveError (ResolutionResult × String) → Bool
  | .error (.multipleSponsorKeyRecordsError _) => true
  | _ => false

/-! ## Spec-side grammar predicates

These definitions follow the words of the spec (not the source), for the
refinement comparisons: the spec's identifier grammar is an exact
46-character base64 or 55-character base32 string, and the spec's uri shape
is `/<identifier>` or `/<identifier>/<path>`. -/

/-- Spec wording: a 46-character URL-safe-base64 string or a 55-character
lowercase-base32 string, in its entirety. -/
def specIdentifierGrammar (v : List Char) : Bool :=
  (v.length = 46 && v.all isB64Char) || (v.length = 55 && v.all isB32Char)

/-- Does the list begin with `/`? -/
def headIsSlash : List Char → Bool
  | '/' :: _ => true
  | _ => false

/-- Spec wording: the uri has the shape `/<identifier>` or
`/<identifier>/<path>`. -/
def specUriShape (u : String) : Bool :=
  match u.data with
  | '/' :: rest =>
    specIdentifierGrammar rest
      || ((rest.take 55).length = 55 && (rest.take 55).all isB32Char
            && headIsSlash (rest.drop 55))
      || ((rest.take 46).length = 46 && (rest.take 46).all isB64Char
            && headIsSlash (rest.drop 46))
  | _ => false

/-- Sia base32 digit alphabet `0-9a-v` of the modelled conversion. -/
def isSiaB32Char (c : Char) : Bool :=
  (48 ≤ c.toNat && c.toNat ≤ 57) || (97 ≤ c.toNat && c.toNat ≤ 118)

/-- A canonical 55-character base32 identifier: every character is a base32
digit and the three trailing padding bits are zero. -/
def isCanonicalBase32 (s : String) : Bool :=
  s.data.length = 55 && s.data.all isSiaB32Char && base32Value s.data % 8 == 0

/-- An identifier block: 55 characters of the base32 class or 46 characters
of the base64 class. -/
def IsIdentifierBlock (sk : List Char) : Prop :=
  (sk.length = 55 ∧ ∀ c ∈ sk, isB32Char c = true)
    ∨ (sk.length = 46 ∧ ∀ c ∈ sk, isB64Char c = true)

/-- The value begins with an identifier block (arbitrary characters may
follow). -/
def HasLeadingIdentifier (v : List Char) : Prop :=
  ∃ sk rest, v = sk ++ rest ∧ IsIdentifierBlock sk

/-! ## Helper lemmas -/

/-- `dropStart` succeeds exactly on strings that begin with the marker. -/
theorem dropStart_eq_some_iff {p : List Char} :
    ∀ {s v : List Char}, dropStart p s = some v ↔ s = p ++ v := by
  induction p with
  | nil => intro s v; simp [dropStart]
  | cons a ps ih =>
    intro s v
    cases s with
    | nil => simp [dropStart]
    | cons c cs =>
      by_cases hac : a = c
      · subst hac
        simp [dropStart, ih]
      · rw [dropStart, if_neg hac, List.cons_append]
        constructor
        · intro h; exact absurd h (by simp)
        · intro h
          injection h with h1 _
          exact absurd h1.symm hac

/-- Characterization of a successful `matchSkylinkValue`. -/
theorem matchSkylinkValue_isSome_iff {v : List Char} :
    (matchSkylinkValue v).isSome ↔ HasLeadingIdentifier v := by
  unfold matchSkylinkValue
  split
  · rename_i hc
    simp only [Bool.and_eq_true, decide_eq_true_eq] at hc
    refine iff_of_true rfl ?_
    exact ⟨v.take 55, v.drop 55, (List.take_append_drop 55 v).symm,
      Or.inl ⟨hc.1, List.all_eq_true.mp hc.2⟩⟩
  · split
    · rename_i hc
      simp only [Bool.and_eq_true, decide_eq_true_eq] at hc
      refine iff_of_true rfl ?_
      exact ⟨v.take 46, v.drop 46, (List.take_append_drop 46 v).symm,
        Or.inr ⟨hc.1, List.all_eq_true.mp hc.2⟩⟩
    · rename_i h55 h46
      refine iff_of_false (by simp) ?_
      rintro ⟨sk, rest, hv, hblock | hblock⟩
      · apply h55
        have ht : v.take 55 = sk := by rw [hv]; exact List.take_left' hblock.1
        simp only [ht, Bool.and_eq_true, decide_eq_true_eq, List.all_eq_true]
        exact ⟨hblock.1, hblock.2⟩
      · apply h46
        have ht : v.take 46 = sk := by rw [hv]; exact List.take_left' hblock.1
        simp only [ht, Bool.and_eq_true, decide_eq_true_eq, List.all_eq_true]
        exact ⟨hblock.1, hblock.2⟩

/-- A captured skylink value is an identifier block. -/
theorem matchSkylinkValue_block {v sk : List Char}
    (h : matchSkylinkValue v = some sk) : IsIdentifierBlock sk := by
  unfold matchSkylinkValue at h
  split at h
  · rename_i hc
    cases h
    simp only [Bool.and_eq_true, decide_eq_true_eq] at hc
    exact Or.inl ⟨hc.1, List.all_eq_true.mp hc.2⟩
  · split at h
    · rename_i hc
      cases h
      simp only [Bool.and_eq_true, decide_eq_true_eq] at hc
      exact Or.inr ⟨hc.1, List.all_eq_true.mp hc.2⟩
    · cases h

/-- A skylink extracted from a dnslink record is an identifier block. -/
theorem dnslinkSkylinkMatch_block {s : String} {sk : String}
    (h : dnslinkSkylinkMatch s = some sk) : IsIdentifierBlock sk.data := by
  unfold dnslinkSkylinkMatch at h
  cases hd : dropStart dnslinkMarker s.data with
  | none => rw [hd] at h; cases h
  | some v =>
    rw [hd] at h
    simp only [Option.some_bind, Option.map_eq_some'] at h
    obtain ⟨l, hm, hsk⟩ := h
    subst hsk
    exact matchSkylinkValue_block hm

/-- A skylink captured after the leading slash is an identifier block. -/
theorem uriSkylinkMatchTail_block {rest : List Char} {m : UriMatch}
    (h : uriSkylinkMatchTail rest = some m) : IsIdentifierBlock m.skylink.data := by
  unfold uriSkylinkMatchTail at h
  cases hm : matchSkylinkValue rest with
  | none => rw [hm] at h; cases h
  | some sk =>
    rw [hm] at h
    have hblock := matchSkylinkValue_block hm
    split at h
    · rename_i v hv
      injection hv with hv'
      subst hv'
      split at h
      all_goals
        injection h with h2
        rw [← h2]
        exact hblock
    · cases h

/-- A skylink captured from the uri is an identifier block. -/
theorem uriSkylinkMatch_block {u : String} {m : UriMatch}
    (h : uriSkylinkMatch u = some m) : IsIdentifierBlock m.skylink.data := by
  unfold uriSkylinkMatch at h
  split at h
  · exact uriSkylinkMatchTail_block h
  · cases h

/-- A skylink captured through `uriMatchOf` is an identifier block. -/
theorem uriMatchOf_block {uri : Option String} {m : UriMatch}
    (h : uriMatchOf uri = some m) : IsIdentifierBlock m.skylink.data := by
  unfold uriMatchOf at h
  split at h
  · split at h
    · cases h
    · exact uriSkylinkMatch_block h
  · cases h

/-- `extractSkylinkAndPath` errors are `InvalidSkylinkError`s. -/
theorem extract_error_is_invalid {lookup : String} {l : List String}
    {m : Option UriMatch} {u : Option String} {e : ResolveError}
    (h : extractSkylinkAndPath lookup l m u = .error e) :
    ∃ msg, e = .invalidSkylinkError msg := by
  unfold extractSkylinkAndPath at h
  split at h
  · split at h
    · cases h
    · cases h; exact ⟨_, rfl⟩
  · split at h <;> cases h

/-- The extraction tail never raises `NoSkynetDNSLinksFoundError`. -/
theorem finishResolution_not_noLinks (domain lookup : String)
    (l sp : List String) (m : Option UriMatch) (u : Option String) :
    isNoLinksError (finishResolution domain lookup l sp m u) = false := by
  unfold finishResolution
  cases hE : extractSkylinkAndPath lookup l m u with
  | error e =>
    obtain ⟨msg, rfl⟩ := extract_error_is_invalid hE
    rfl
  | ok p =>
    obtain ⟨sk0, path⟩ := p
    rfl

/-- Reduction of the extraction on a singleton record list. -/
theorem extract_singleton (lookup : String) (r : String) (m : Option UriMatch)
    (u : Option String) :
    extractSkylinkAndPath lookup [r] m u
      = match dnslinkSkylinkMatch r with
        | some sk => .ok (some sk, u)
        | none => .error (.invalidSkylinkError
            ("TXT record with skynet dnslink for " ++ lookup ++ " contains invalid skylink - " ++ hint)) :=
  rfl

/-- Reduction of the extraction on an empty record list. -/
theorem extract_nil (lookup : String) (m : Option UriMatch) (u : Option String) :
    extractSkylinkAndPath lookup [] m u
      = match m with
        | some mm => .ok (some mm.skylink, some (mm.path.getD "/"))
        | none => .ok (none, u) :=
  rfl

/-! ## Claim theorems -/

/-- Claim C5 (code-bug evidence): a sponsor-only resolution succeeds, yet
the emitted log line still contains the clause `skylink: undefined` — the
source's `.filter(Boolean)` is applied to template strings, which are
always truthy, so the absent clause is never omitted as the spec requires. -/
theorem log_line_keeps_absent_skylink_clause :
    resolveRecords "example.com" [["skynet-sponsor-key=dummySponsorKey1"]] none
      = .ok ({ skylink := none, sponsor := some "dummySponsorKey1", path := none },
             "example.com => skylink: undefined | sponsor: dummySponsorKey1") := rfl

/-- Claim C1 (counterexample): a record whose value is 47 characters — a
valid 46-character base64 block followed by one extra character — fails the
identifier grammar (it is neither exactly 46 nor exactly 55 characters),
yet `resolve` does not raise `InvalidSkylinkError`: `dnslinkSkylinkRegExp`
has no end anchor, so the leading 46-character block is extracted and the
resolution succeeds. -/
theorem trailing_junk_skylink_accepted :
    resolveRecords "example.com"
        [["dnslink=/skynet-ns/AAAAAAAAAAAAAAAAAAAAAAAAAAAAAAAAAAAAAAAAAAAAAAX"]] none
      = .ok ({ skylink := some "AAAAAAAAAAAAAAAAAAAAAAAAAAAAAAAAAAAAAAAAAAAAAA",
               sponsor := none, path := none },
             "example.com => skylink: AAAAAAAAAAAAAAAAAAAAAAAAAAAAAAAAAAAAAAAAAAAAAA | sponsor: undefined")
    ∧ specIdentifierGrammar "AAAAAAAAAAAAAAAAAAAAAAAAAAAAAAAAAAAAAAAAAAAAAAX".data = false :=
  ⟨rfl, rfl⟩

/-- Claim C6 (counterexample): a uri consisting of `/`, a valid
46-character identifier and the trailing text `?q` is neither of the shape
`/<identifier>` nor `/<identifier>/<path>`, yet the uri match succeeds
(with no captured path): `uriSkylinkRegExp` has no end anchor. -/
theorem uri_match_beyond_spec_shape :
    uriSkylinkMatch "/AAAAAAAAAAAAAAAAAAAAAAAAAAAAAAAAAAAAAAAAAAAAAA?q"
      = some ⟨"AAAAAAAAAAAAAAAAAAAAAAAAAAAAAAAAAAAAAAAAAAAAAA", none⟩
    ∧ specUriShape "/AAAAAAAAAAAAAAAAAAAAAAAAAAAAAAAAAAAAAAAAAAAAAA?q" = false :=
  ⟨rfl, rfl⟩

/-- Claim C7 (counterexample): the record `dnslink=/skynet-ns/a\nb` equals
the marker followed by a non-empty value, yet the classifier rejects it:
in a JavaScript regular expression `.` does not match the line terminator
`\n`, so `dnslinkRegExp` does not accept values containing one. -/
theorem newline_value_not_classified :
    ("dnslink=/skynet-ns/a\nb" : String) = "dnslink=/skynet-ns/" ++ "a\nb"
    ∧ ("a\nb" : String) ≠ ""
    ∧ dnslinkRegExpTest "dnslink=/skynet-ns/a\nb" = false :=
  ⟨rfl, by decide, rfl⟩

/-- Claim C9: the cardinality checks run in a fixed order and count
convention-matching records independently of their values: more than one
skylink-convention record always produces `MultipleSkylinksError`
(whatever the sponsor records, uri, or embedded values);
`MultipleSponsorKeyRecordsError` is only reachable with at most one
skylink-convention record, and is produced whenever the sponsor count
exceeds one while the skylink count does not. -/
theorem cardinality_check_order (domain : String) (addresses : List (List String))
    (uri : Option String) :
    (1 < (addresses.flatten.filter dnslinkRegExpTest).length →
      isMultipleSkylinksErr (resolveRecords domain addresses uri) = true)
    ∧ (isMultipleSponsorErr (resolveRecords domain addresses uri) = true →
      (addresses.flatten.filter dnslinkRegExpTest).length ≤ 1)
    ∧ ((addresses.flatten.filter dnslinkRegExpTest).length ≤ 1 →
      1 < (addresses.flatten.filter sponsorRegExpTest).length →
      isMultipleSponsorErr (resolveRecords domain addresses uri) = true) := by
  refine ⟨?_, ?_, ?_⟩
  · intro h
    simp only [resolveRecords, if_pos h]
    rfl
  · intro h
    by_cases hsk : 1 < (addresses.flatten.filter dnslinkRegExpTest).length
    · simp only [resolveRecords, if_pos hsk] at h
      simp [isMultipleSponsorErr] at h
    · omega
  · intro hsk hsp
    have hsk' : ¬ 1 < (addresses.flatten.filter dnslinkRegExpTest).length := by omega
    simp only [resolveRecords, if_neg hsk', if_pos hsp]
    rfl

/-- Witness for C9 at concrete inputs: two grammar-invalid skylink records
together with two sponsor records and a uri identifier still produce
`MultipleSkylinksError`, and one skylink record with two sponsor records
produces `MultipleSponsorKeyRecordsError`. -/
theorem cardinality_check_order_witness :
    isMultipleSkylinksErr (resolveRecords "e.com"
        [["dnslink=/skynet-ns/x"], ["dnslink=/skynet-ns/y"],
         ["skynet-sponsor-key=a"], ["skynet-sponsor-key=b"]]
        (some "/AAAAAAAAAAAAAAAAAAAAAAAAAAAAAAAAAAAAAAAAAAAAAA")) = true
    ∧ isMultipleSponsorErr (resolveRecords "e.com"
        [["dnslink=/skynet-ns/x"], ["skynet-sponsor-key=a"], ["skynet-sponsor-key=b"]]
        none) = true :=
  ⟨(cardinality_check_order "e.com"
      [["dnslink=/skynet-ns/x"], ["dnslink=/skynet-ns/y"],
       ["skynet-sponsor-key=a"], ["skynet-sponsor-key=b"]]
      (some "/AAAAAAAAAAAAAAAAAAAAAAAAAAAAAAAAAAAAAAAAAAAAAA")).1 (by decide),
   (cardinality_check_order "e.com"
      [["dnslink=/skynet-ns/x"], ["skynet-sponsor-key=a"], ["skynet-sponsor-key=b"]]
      none).2.2 (by decide) (by decide)⟩

/-- Claim C3: `resolve` raises `NoSkynetDNSLinksFoundError` exactly when
there are zero skylink-convention records, zero sponsor-convention records
and no uri-embedded identifier; and with a uri identifier present, a record
set with no convention-matching records (in particular the empty set)
resolves successfully using the uri identifier. -/
theorem noLinks_error_characterization (domain : String)
    (addresses : List (List String)) (uri : Option String) :
    (isNoLinksError (resolveRecords domain addresses uri) = true ↔
      ((addresses.flatten.filter dnslinkRegExpTest).length = 0
        ∧ (addresses.flatten.filter sponsorRegExpTest).length = 0
        ∧ uriMatchOf uri = none))
    ∧ (∀ m : UriMatch, uriMatchOf uri = some m →
        addresses.flatten.filter dnslinkRegExpTest = [] →
        addresses.flatten.filter sponsorRegExpTest = [] →
        ∃ res log, resolveRecords domain addresses uri = .ok (res, log)
          ∧ res.skylink = some (normalizeSkylink m.skylink)
          ∧ res.path = some (m.path.getD "/")) := by
  constructor
  · by_cases h1 : 1 < (addresses.flatten.filter dnslinkRegExpTest).length
    · simp only [resolveRecords, if_pos h1]
      refine iff_of_false (by simp [isNoLinksError]) ?_
      rintro ⟨h0, -, -⟩
      omega
    · by_cases h2 : 1 < (addresses.flatten.filter sponsorRegExpTest).length
      · simp only [resolveRecords, if_neg h1, if_pos h2]
        refine iff_of_false (by simp [isNoLinksError]) ?_
        rintro ⟨-, h0, -⟩
        omega
      · by_cases h3 : (addresses.flatten.filter dnslinkRegExpTest).length = 0
            ∧ (addresses.flatten.filter sponsorRegExpTest).length = 0
            ∧ uriMatchOf uri = none
        · simp only [resolveRecords, if_neg h1, if_neg h2, if_pos h3]
          exact iff_of_true rfl h3
        · simp only [resolveRecords, if_neg h1, if_neg h2, if_neg h3]
          refine iff_of_false ?_ h3
          rw [finishResolution_not_noLinks]
          simp
  · intro m hm hsk hsp
    have h1 : ¬ 1 < (addresses.flatten.filter dnslinkRegExpTest).length := by
      rw [hsk]; simp
    have h2 : ¬ 1 < (addresses.flatten.filter sponsorRegExpTest).length := by
      rw [hsp]; simp
    have h3 : ¬ ((addresses.flatten.filter dnslinkRegExpTest).length = 0
        ∧ (addresses.flatten.filter sponsorRegExpTest).length = 0
        ∧ uriMatchOf uri = none) := by
      rw [hm]
      rintro ⟨-, -, h⟩
      cases h
    simp only [resolveRecords, if_neg h1, if_neg h2, if_neg h3, hsk, hsp]
    unfold finishResolution extractSkylinkAndPath
    rw [hm]
    exact ⟨_, _, rfl, rfl, rfl⟩

/-- Witness for C3 at concrete inputs: with no records and no uri the
resolver fails with `NoSkynetDNSLinksFoundError`, and with no records but a
valid uri identifier it resolves to that identifier with path `/`. -/
theorem noLinks_error_characterization_witness :
    isNoLinksError (resolveRecords "example.com" [] none) = true
    ∧ ∃ res log,
        resolveRecords "example.com" []
          (some "/AAAAAAAAAAAAAAAAAAAAAAAAAAAAAAAAAAAAAAAAAAAAAA") = .ok (res, log)
        ∧ res.skylink = some (normalizeSkylink "AAAAAAAAAAAAAAAAAAAAAAAAAAAAAAAAAAAAAAAAAAAAAA")
        ∧ res.path = some "/" :=
  ⟨(noLinks_error_characterization "example.com" [] none).1.mpr
      ⟨rfl, rfl, rfl⟩,
   (noLinks_error_characterization "example.com" []
      (some "/AAAAAAAAAAAAAAAAAAAAAAAAAAAAAAAAAAAAAAAAAAAAAA")).2
      ⟨"AAAAAAAAAAAAAAAAAAAAAAAAAAAAAAAAAAAAAAAAAAAAAA", none⟩ rfl rfl rfl⟩

/-- Claim C1 (amended): with exactly one skylink-convention record (and at
most one sponsor record, so that the earlier cardinality check does not
fire first), `resolve` raises `InvalidSkylinkError` precisely when the
record's value does not BEGIN with an identifier block — a 55-character
base32 or 46-character base64 run; characters may trail a valid block
because `dnslinkSkylinkRegExp` has no end anchor. -/
theorem invalidSkylink_iff_no_leading_identifier (domain : String)
    (addresses : List (List String)) (uri : Option String) (r : String) (v : List Char)
    (hone : addresses.flatten.filter dnslinkRegExpTest = [r])
    (hsp : (addresses.flatten.filter sponsorRegExpTest).length ≤ 1)
    (hv : r.data = dnslinkMarker ++ v) :
    isInvalidSkylinkError (resolveRecords domain addresses uri) = true
      ↔ ¬ HasLeadingIdentifier v := by
  have h2 : ¬ 1 < (addresses.flatten.filter sponsorRegExpTest).length := by omega
  simp only [resolveRecords, if_neg h2, hone]
  rw [if_neg (show ¬ 1 < [r].length by simp)]
  rw [if_neg (show ¬ ([r].length = 0
      ∧ (addresses.flatten.filter sponsorRegExpTest).length = 0
      ∧ uriMatchOf uri = none) by rintro ⟨h0, -, -⟩; simp at h0)]
  have hds : dropStart dnslinkMarker r.data = some v := dropStart_eq_some_iff.mpr hv
  unfold finishResolution
  rw [extract_singleton]
  cases hmv : matchSkylinkValue v with
  | some sk =>
    have hdm : dnslinkSkylinkMatch r = some ⟨sk⟩ := by
      unfold dnslinkSkylinkMatch
      rw [hds]
      simp [hmv]
    rw [hdm]
    refine iff_of_false (by simp [isInvalidSkylinkError]) ?_
    intro hno
    exact hno (matchSkylinkValue_isSome_iff.mp (by rw [hmv]; rfl))
  | none =>
    have hdm : dnslinkSkylinkMatch r = none := by
      unfold dnslinkSkylinkMatch
      rw [hds]
      simp [hmv]
    rw [hdm]
    refine iff_of_true rfl ?_
    intro hLead
    have hs := matchSkylinkValue_isSome_iff.mpr hLead
    rw [hmv] at hs
    cases hs

/-- Witness for the amended C1: the grammar-invalid value
`broken-skylink` (which begins with no identifier block) makes `resolve`
fail with `InvalidSkylinkError`. -/
theorem invalidSkylink_iff_witness :
    isInvalidSkylinkError (resolveRecords "example.com"
      [["dnslink=/skynet-ns/broken-skylink"]] none) = true :=
  (invalidSkylink_iff_no_leading_identifier "example.com"
      [["dnslink=/skynet-ns/broken-skylink"]] none
      "dnslink=/skynet-ns/broken-skylink" "broken-skylink".data
      rfl (by decide) rfl).mpr
    (fun h => by
      have hs := matchSkylinkValue_isSome_iff.mpr h
      rw [show matchSkylinkValue "broken-skylink".data = none from rfl] at hs
      cases hs)

/-- Claim C2: when resolution succeeds with a uri identifier present, a
single DNS skylink-convention record always supplies the returned skylink
(never the uri identifier) and `path` is the full original uri string;
with no DNS skylink record, the uri identifier supplies the skylink and
`path` is its parsed trailing segment, defaulting to `/`. -/
theorem dns_precedence_and_uri_fallback (domain : String)
    (addresses : List (List String)) (uri : Option String) (m : UriMatch)
    (res : ResolutionResult) (log : String)
    (hok : resolveRecords domain addresses uri = .ok (res, log))
    (hm : uriMatchOf uri = some m) :
    (∀ r, addresses.flatten.filter dnslinkRegExpTest = [r] →
      res.path = uri ∧ ∃ sk, dnslinkSkylinkMatch r = some sk
        ∧ res.skylink = some (normalizeSkylink sk))
    ∧ (addresses.flatten.filter dnslinkRegExpTest = [] →
      res.skylink = some (normalizeSkylink m.skylink)
        ∧ res.path = some (m.path.getD "/")) := by
  constructor
  · intro r hone
    simp only [resolveRecords, hone] at hok
    rw [if_neg (show ¬ 1 < [r].length by simp)] at hok
    split at hok
    · exact absurd hok (by simp)
    · split at hok
      · exact absurd hok (by simp)
      · unfold finishResolution at hok
        rw [extract_singleton] at hok
        cases hdm : dnslinkSkylinkMatch r with
        | none =>
          rw [hdm] at hok
          exact absurd hok (by simp)
        | some sk =>
          rw [hdm] at hok
          injection hok with h'
          injection h' with hres hlog
          subst hres
          exact ⟨rfl, sk, rfl, by simp⟩
  · intro hnil
    simp only [resolveRecords, hnil] at hok
    rw [if_neg (show ¬ 1 < ([] : List String).length by simp)] at hok
    split at hok
    · exact absurd hok (by simp)
    · split at hok
      · rename_i hc
        obtain ⟨-, -, hcc⟩ := hc
        rw [hm] at hcc
        cases hcc
      · unfold finishResolution at hok
        rw [extract_nil, hm] at hok
        injection hok with h'
        injection h' with hres hlog
        subst hres
        exact ⟨by simp, rfl⟩

/-- Witness for C2 at concrete inputs: with one DNS record and a uri
identifier, the DNS identifier is returned and the path is the raw uri. -/
theorem dns_precedence_witness :
    ∃ res log,
      resolveRecords "example.com"
          [["dnslink=/skynet-ns/AQCYCPSmSMfmZjOKLX4zoYHHTNJQW2daVgZ2PTpkASFlSA"]]
          (some "/AAAAAAAAAAAAAAAAAAAAAAAAAAAAAAAAAAAAAAAAAAAAAA/foo") = .ok (res, log)
      ∧ res.path = some "/AAAAAAAAAAAAAAAAAAAAAAAAAAAAAAAAAAAAAAAAAAAAAA/foo"
      ∧ res.skylink = some (normalizeSkylink "AQCYCPSmSMfmZjOKLX4zoYHHTNJQW2daVgZ2PTpkASFlSA") := by
  refine ⟨_, _, rfl, ?_⟩
  have h := (dns_precedence_and_uri_fallback "example.com"
      [["dnslink=/skynet-ns/AQCYCPSmSMfmZjOKLX4zoYHHTNJQW2daVgZ2PTpkASFlSA"]]
      (some "/AAAAAAAAAAAAAAAAAAAAAAAAAAAAAAAAAAAAAAAAAAAAAA/foo")
      ⟨"AAAAAAAAAAAAAAAAAAAAAAAAAAAAAAAAAAAAAAAAAAAAAA", some "/foo"⟩
      _ _ rfl rfl).1
      "dnslink=/skynet-ns/AQCYCPSmSMfmZjOKLX4zoYHHTNJQW2daVgZ2PTpkASFlSA" rfl
  obtain ⟨hpath, sk, hsk, hres⟩ := h
  refine ⟨hpath, ?_⟩
  rw [hres]
  have : sk = "AQCYCPSmSMfmZjOKLX4zoYHHTNJQW2daVgZ2PTpkASFlSA" := by
    have := hsk.symm.trans
      (show dnslinkSkylinkMatch "dnslink=/skynet-ns/AQCYCPSmSMfmZjOKLX4zoYHHTNJQW2daVgZ2PTpkASFlSA"
          = some "AQCYCPSmSMfmZjOKLX4zoYHHTNJQW2daVgZ2PTpkASFlSA" from rfl)
    injection this
  rw [this]

/-- The uri match on a string starting with `/` succeeds exactly when the
remainder begins with an identifier block. -/
theorem uriSkylinkMatch_isSome_iff {u : String} {cs : List Char}
    (hu : u.data = '/' :: cs) :
    (uriSkylinkMatch u).isSome = true ↔ HasLeadingIdentifier cs := by
  unfold uriSkylinkMatch
  rw [hu]
  show (uriSkylinkMatchTail cs).isSome = true ↔ HasLeadingIdentifier cs
  unfold uriSkylinkMatchTail
  cases hmv : matchSkylinkValue cs with
  | none =>
    refine iff_of_false (by simp) ?_
    intro h
    have hs := matchSkylinkValue_isSome_iff.mpr h
    rw [hmv] at hs
    cases hs
  | some sk =>
    refine iff_of_true ?_ (matchSkylinkValue_isSome_iff.mp (by rw [hmv]; rfl))
    split
    · split <;> rfl
    · rename_i hv
      cases hv

/-- The classifier accepts a record exactly when it is the marker followed
by a non-empty run of non-line-terminator characters. -/
theorem dnslinkRegExpTest_iff {s : String} :
    dnslinkRegExpTest s = true ↔
      ∃ v : List Char, s.data = dnslinkMarker ++ v ∧ v ≠ []
        ∧ ∀ c ∈ v, isLineTerm c = false := by
  unfold dnslinkRegExpTest
  cases hds : dropStart dnslinkMarker s.data with
  | none =>
    refine iff_of_false (by simp) ?_
    rintro ⟨v, hv, -, -⟩
    rw [dropStart_eq_some_iff.mpr hv] at hds
    cases hds
  | some v =>
    have hsv : s.data = dnslinkMarker ++ v := dropStart_eq_some_iff.mp hds
    cases v with
    | nil =>
      refine iff_of_false (by simp [List.isEmpty]) ?_
      rintro ⟨v', hv', hne, -⟩
      rw [hsv] at hv'
      exact hne (List.append_cancel_left hv').symm
    | cons a as =>
      simp only [List.isEmpty, Bool.not_false, Bool.true_and, List.all_eq_true,
        Bool.not_eq_true']
      constructor
      · intro h
        exact ⟨a :: as, hsv, List.cons_ne_nil a as, h⟩
      · rintro ⟨v', hv', -, hall⟩
        rw [hsv] at hv'
        rw [List.append_cancel_left hv']
        exact hall
/-- The classifier accepts a sponsor record exactly when it is the marker
followed by a non-empty alphanumeric run. -/
theorem sponsorRegExpTest_iff {s : String} :
    sponsorRegExpTest s = true ↔
      ∃ k : List Char, s.data = sponsorMarker ++ k ∧ k ≠ []
        ∧ ∀ c ∈ k, isAlnum c = true := by
  unfold sponsorRegExpTest
  cases hds : dropStart sponsorMarker s.data with
  | none =>
    refine iff_of_false (by simp) ?_
    rintro ⟨k, hk, -, -⟩
    rw [dropStart_eq_some_iff.mpr hk] at hds
    cases hds
  | some k =>
    have hsk : s.data = sponsorMarker ++ k := dropStart_eq_some_iff.mp hds
    cases k with
    | nil =>
      refine iff_of_false (by simp [List.isEmpty]) ?_
      rintro ⟨k', hk', hne, -⟩
      rw [hsk] at hk'
      exact hne (List.append_cancel_left hk').symm
    | cons a as =>
      simp only [List.isEmpty, Bool.not_false, Bool.true_and, List.all_eq_true]
      constructor
      · intro h
        exact ⟨a :: as, hsk, List.cons_ne_nil a as, h⟩
      · rintro ⟨k', hk', -, hall⟩
        rw [hsk] at hk'
        rw [List.append_cancel_left hk']
        exact hall

/-- Claim C6 (amended): the uri-embedded-identifier match succeeds exactly
when the uri begins with `/` followed by an identifier block — a
55-character lowercase-base32 or 46-character URL-safe-base64 run —
regardless of what follows the block (the regular expression has no end
anchor); any other uri yields no match rather than an error. -/
theorem uri_match_iff_leading_identifier (u : String) :
    (∃ m, uriSkylinkMatch u = some m)
      ↔ ∃ sk rest, u.data = '/' :: (sk ++ rest) ∧ IsIdentifierBlock sk := by
  cases hu : u.data with
  | nil =>
    refine iff_of_false ?_ ?_
    · rintro ⟨m, hm⟩
      unfold uriSkylinkMatch at hm
      rw [hu] at hm
      simp at hm
    · rintro ⟨sk, rest, habs, -⟩
      exact absurd habs (by simp)
  | cons c cs =>
    by_cases hc : c = '/'
    · subst hc
      have hiff := uriSkylinkMatch_isSome_iff hu
      constructor
      · rintro ⟨m, hm⟩
        obtain ⟨sk, rest, hcs, hblock⟩ := hiff.mp (by rw [hm]; rfl)
        exact ⟨sk, rest, by rw [hcs], hblock⟩
      · rintro ⟨sk, rest, habs, hblock⟩
        injection habs with hhead hcs
        exact Option.isSome_iff_exists.mp (hiff.mpr ⟨sk, rest, hcs, hblock⟩)
    · refine iff_of_false ?_ ?_
      · rintro ⟨m, hm⟩
        rw [show uriSkylinkMatch u = none from by
          unfold uriSkylinkMatch
          rw [hu]
          split
          · rename_i rest heq
            injection heq with h1 htl
            exact absurd h1 hc
          · rfl] at hm
        cases hm
      · rintro ⟨sk, rest', habs, -⟩
        injection habs with h1 htl
        exact absurd h1 hc

/-- Witness for the amended C6: a uri with a valid 46-character identifier
and a trailing `/x` segment is matched. -/
theorem uri_match_iff_witness :
    ∃ m, uriSkylinkMatch "/AAAAAAAAAAAAAAAAAAAAAAAAAAAAAAAAAAAAAAAAAAAAAA/x" = some m :=
  (uri_match_iff_leading_identifier "/AAAAAAAAAAAAAAAAAAAAAAAAAAAAAAAAAAAAAAAAAAAAAA/x").mpr
    ⟨"AAAAAAAAAAAAAAAAAAAAAAAAAAAAAAAAAAAAAAAAAAAAAA".data, "/x".data, rfl,
     Or.inr ⟨by decide, by decide⟩⟩

/-- Claim C7 (amended): a record matches the skylink convention exactly
when it equals `dnslink=/skynet-ns/<v>` for a non-empty `<v>` free of line
terminators (JavaScript's `.` excludes them), matches the sponsor
convention exactly when it equals `skynet-sponsor-key=<k>` for a non-empty
alphanumeric `<k>`, and no record matches both conventions. -/
theorem classifier_characterization (s : String) :
    (dnslinkRegExpTest s = true ↔
      ∃ v : List Char, s.data = dnslinkMarker ++ v ∧ v ≠ []
        ∧ ∀ c ∈ v, isLineTerm c = false)
    ∧ (sponsorRegExpTest s = true ↔
      ∃ k : List Char, s.data = sponsorMarker ++ k ∧ k ≠ []
        ∧ ∀ c ∈ k, isAlnum c = true)
    ∧ ¬ (dnslinkRegExpTest s = true ∧ sponsorRegExpTest s = true) := by
  refine ⟨dnslinkRegExpTest_iff, sponsorRegExpTest_iff, ?_⟩
  rintro ⟨h1, h2⟩
  obtain ⟨v, hv, -, -⟩ := dnslinkRegExpTest_iff.mp h1
  obtain ⟨k, hk, -, -⟩ := sponsorRegExpTest_iff.mp h2
  have heq : dnslinkMarker ++ v = sponsorMarker ++ k := hv.symm.trans hk
  rw [show dnslinkMarker = 'd' :: "nslink=/skynet-ns/".data from rfl,
      show sponsorMarker = 's' :: "kynet-sponsor-key=".data from rfl] at heq
  injection heq with hh htl
  exact absurd hh (by decide)

/-- Witness for the amended C7: a marker followed by a plain non-empty
value is classified as a skylink-convention record. -/
theorem classifier_characterization_witness :
    dnslinkRegExpTest "dnslink=/skynet-ns/abc" = true :=
  (classifier_characterization "dnslink=/skynet-ns/abc").1.mpr
    ⟨"abc".data, rfl, by decide, by decide⟩

/-- A cache miss stays a miss at any later instant. -/
theorem cacheFind_none_mono {st : CacheState} {k : String} {t t' : Nat}
    (h : cacheFind st k t = none) (htt : t ≤ t') : cacheFind st k t' = none := by
  unfold cacheFind at h ⊢
  cases hfind : st.find? (fun e => e.key == k) with
  | none => rfl
  | some e =>
    rw [hfind] at h
    replace h : (if t ≤ e.expiresAt then some e.value else none) = none := h
    show (if t' ≤ e.expiresAt then some e.value else none) = none
    by_cases hle : t ≤ e.expiresAt
    · rw [if_pos hle] at h
      cases h
    · rw [if_neg (show ¬ t' ≤ e.expiresAt by omega)]

/-- A freshly inserted entry is found while its TTL has not elapsed. -/
theorem cacheFind_cacheSet_self {st : CacheState} {k : String}
    {v : List (List String)} {now ttl t' : Nat} (h : t' ≤ now + ttl) :
    cacheFind (cacheSet st k v now ttl) k t' = some v := by
  unfold cacheFind cacheSet
  rw [List.find?_cons_of_pos _ (by simp)]
  show (if t' ≤ now + ttl then some v else none) = some v
  rw [if_pos h]

/-- Claim C4: the TXT lookup cache holds only successful lookups — a fresh
hit answers from the cache without an upstream query; a successful miss
stores the result, and a second fetch within the TTL issues no second
query; a failed lookup leaves the cache unchanged, so a later fetch
queries upstream again. -/
theorem cache_only_successful_lookups (upstream : String → DnsOutcome)
    (ttl : Nat) (st : CacheState) (now nowLater : Nat) (d : String) :
    (∀ v, cacheFind st d now = some v →
      dnsResolveTxt upstream ttl st now d = ⟨.ok v, st, false⟩)
    ∧ (∀ a, cacheFind st d now = none → upstream d = .success a →
      dnsResolveTxt upstream ttl st now d = ⟨.ok a, cacheSet st d a now ttl, true⟩
        ∧ (nowLater ≤ now + ttl →
          dnsResolveTxt upstream ttl (cacheSet st d a now ttl) nowLater d
            = ⟨.ok a, cacheSet st d a now ttl, false⟩))
    ∧ (cacheFind st d now = none → (upstream d).isFailure = true →
      (dnsResolveTxt upstream ttl st now d).cache = st
        ∧ (dnsResolveTxt upstream ttl st now d).queried = true
        ∧ (∃ msg, (dnsResolveTxt upstream ttl st now d).result
            = .error (.resolutionError msg))
        ∧ (now ≤ nowLater →
          (dnsResolveTxt upstream ttl st nowLater d).queried = true)) := by
  refine ⟨?_, ?_, ?_⟩
  · intro v hv
    unfold dnsResolveTxt
    rw [hv]
  · intro a hmiss hup
    constructor
    · unfold dnsResolveTxt
      rw [hmiss, hup]
    · intro hfresh
      unfold dnsResolveTxt
      rw [cacheFind_cacheSet_self hfresh]
  · intro hmiss hfail
    have hmiss' : ∀ t', now ≤ t' → cacheFind st d t' = none :=
      fun t' h => cacheFind_none_mono hmiss h
    cases hup : upstream d with
    | success a => rw [hup] at hfail; cases hfail
    | notFound =>
      refine ⟨?_, ?_, ?_, fun hlate => ?_⟩
      · unfold dnsResolveTxt; rw [hmiss, hup]
      · unfold dnsResolveTxt; rw [hmiss, hup]
      · exact ⟨_, by unfold dnsResolveTxt; rw [hmiss, hup]⟩
      · unfold dnsResolveTxt; rw [hmiss' nowLater hlate, hup]
    | noData =>
      refine ⟨?_, ?_, ?_, fun hlate => ?_⟩
      · unfold dnsResolveTxt; rw [hmiss, hup]
      · unfold dnsResolveTxt; rw [hmiss, hup]
      · exact ⟨_, by unfold dnsResolveTxt; rw [hmiss, hup]⟩
      · unfold dnsResolveTxt; rw [hmiss' nowLater hlate, hup]
    | otherFailure msg =>
      refine ⟨?_, ?_, ?_, fun hlate => ?_⟩
      · unfold dnsResolveTxt; rw [hmiss, hup]
      · unfold dnsResolveTxt; rw [hmiss, hup]
      · exact ⟨_, by unfold dnsResolveTxt; rw [hmiss, hup]⟩
      · unfold dnsResolveTxt; rw [hmiss' nowLater hlate, hup]

/-- Witness for C4 at concrete inputs: a success is cached and a repeat
fetch within the TTL does not query upstream; a failure is not cached and
the repeat fetch queries again. -/
theorem cache_only_successful_lookups_witness :
    (dnsResolveTxt (fun _ => .success [["x"]]) 300000 [] 0 "k"
        = ⟨.ok [["x"]], cacheSet [] "k" [["x"]] 0 300000, true⟩
      ∧ dnsResolveTxt (fun _ => .success [["x"]]) 300000
          (cacheSet [] "k" [["x"]] 0 300000) 1 "k"
        = ⟨.ok [["x"]], cacheSet [] "k" [["x"]] 0 300000, false⟩)
    ∧ ((dnsResolveTxt (fun _ => .notFound) 300000 [] 0 "k").cache = []
      ∧ (dnsResolveTxt (fun _ => .notFound) 300000 [] 1 "k").queried = true) :=
  ⟨⟨((cache_only_successful_lookups (fun _ => .success [["x"]]) 300000 [] 0 1 "k").2.1
        [["x"]] rfl rfl).1,
    ((cache_only_successful_lookups (fun _ => .success [["x"]]) 300000 [] 0 1 "k").2.1
        [["x"]] rfl rfl).2 (by decide)⟩,
   ⟨((cache_only_successful_lookups (fun _ => .notFound) 300000 [] 0 1 "k").2.2
      rfl rfl).1,
    ((cache_only_successful_lookups (fun _ => .notFound) 300000 [] 0 1 "k").2.2
      rfl rfl).2.2.2 (by decide)⟩⟩

/-- Claim C10: a successful upstream lookup is cached before any record
classification runs, so when `resolve` then fails with a classification
error the fetched record set stays in the cache, and a repeated `resolve`
of the same domain within the TTL reproduces the same error without a new
upstream query. -/
theorem classification_error_keeps_cache (upstream : String → DnsOutcome)
    (ttl : Nat) (st : CacheState) (now nowLater : Nat) (domain : String)
    (uri : Option String) (e : ResolveError)
    (hmiss : cacheFind st ("_dnslink." ++ domain) now = none)
    (hrun : (resolve upstream ttl st now domain uri).result = .error e)
    (hclass : e.isClassification = true)
    (hfresh : nowLater ≤ now + ttl) :
    ∃ a, upstream ("_dnslink." ++ domain) = .success a
      ∧ cacheFind (resolve upstream ttl st now domain uri).cache
          ("_dnslink." ++ domain) nowLater = some a
      ∧ resolve upstream ttl ((resolve upstream ttl st now domain uri).cache)
          nowLater domain uri
        = ⟨.error e, (resolve upstream ttl st now domain uri).cache, false⟩ := by
  cases hup : upstream ("_dnslink." ++ domain) with
  | success a =>
    have hd : dnsResolveTxt upstream ttl st now ("_dnslink." ++ domain)
        = ⟨.ok a, cacheSet st ("_dnslink." ++ domain) a now ttl, true⟩ := by
      unfold dnsResolveTxt
      rw [hmiss, hup]
    have hres : resolve upstream ttl st now domain uri
        = ⟨resolveRecords domain a uri,
           cacheSet st ("_dnslink." ++ domain) a now ttl, true⟩ := by
      unfold resolve
      rw [hd]
    rw [hres] at hrun
    replace hrun : resolveRecords domain a uri = .error e := hrun
    have hd2 : dnsResolveTxt upstream ttl
        (cacheSet st ("_dnslink." ++ domain) a now ttl) nowLater ("_dnslink." ++ domain)
        = ⟨.ok a, cacheSet st ("_dnslink." ++ domain) a now ttl, false⟩ := by
      unfold dnsResolveTxt
      rw [cacheFind_cacheSet_self hfresh]
    refine ⟨a, rfl, ?_, ?_⟩
    · rw [hres]
      exact cacheFind_cacheSet_self hfresh
    · rw [hres]
      unfold resolve
      rw [hd2]
      show (⟨resolveRecords domain a uri,
             cacheSet st ("_dnslink." ++ domain) a now ttl, false⟩ : ResolveOutput)
          = ⟨.error e, cacheSet st ("_dnslink." ++ domain) a now ttl, false⟩
      rw [hrun]
  | notFound =>
    exfalso
    have hd : dnsResolveTxt upstream ttl st now ("_dnslink." ++ domain)
        = ⟨.error (.resolutionError
            ("ENOTFOUND: " ++ ("_dnslink." ++ domain) ++ " TXT record doesn't exist")),
           st, true⟩ := by
      unfold dnsResolveTxt
      rw [hmiss, hup]
    unfold resolve at hrun
    rw [hd] at hrun
    replace hrun : Except.error (ResolveError.resolutionError
        ("ENOTFOUND: " ++ ("_dnslink." ++ domain) ++ " TXT record doesn't exist"))
          = (Except.error e : Except ResolveError (ResolutionResult × String)) := hrun
    injection hrun with he
    rw [← he] at hclass
    simp [ResolveError.isClassification, ResolveError.isResolution] at hclass
  | noData =>
    exfalso
    have hd : dnsResolveTxt upstream ttl st now ("_dnslink." ++ domain)
        = ⟨.error (.resolutionError
            ("ENODATA: " ++ ("_dnslink." ++ domain) ++ " dns lookup returned no data")),
           st, true⟩ := by
      unfold dnsResolveTxt
      rw [hmiss, hup]
    unfold resolve at hrun
    rw [hd] at hrun
    replace hrun : Except.error (ResolveError.resolutionError
        ("ENODATA: " ++ ("_dnslink." ++ domain) ++ " dns lookup returned no data"))
          = (Except.error e : Except ResolveError (ResolutionResult × String)) := hrun
    injection hrun with he
    rw [← he] at hclass
    simp [ResolveError.isClassification, ResolveError.isResolution] at hclass
  | otherFailure msg =>
    exfalso
    have hd : dnsResolveTxt upstream ttl st now ("_dnslink." ++ domain)
        = ⟨.error (.resolutionError
            ("Failed to fetch " ++ ("_dnslink." ++ domain) ++ " TXT record: " ++ msg)),
           st, true⟩ := by
      unfold dnsResolveTxt
      rw [hmiss, hup]
    unfold resolve at hrun
    rw [hd] at hrun
    replace hrun : Except.error (ResolveError.resolutionError
        ("Failed to fetch " ++ ("_dnslink." ++ domain) ++ " TXT record: " ++ msg))
          = (Except.error e : Except ResolveError (ResolutionResult × String)) := hrun
    injection hrun with he
    rw [← he] at hclass
    simp [ResolveError.isClassification, ResolveError.isResolution] at hclass

/-- Witness for C10 at concrete inputs: two skylink records yield
`MultipleSkylinksError`, the fetched records stay in the cache, and a
second resolve within the TTL reproduces the error without querying. -/
theorem classification_error_keeps_cache_witness :
    ∃ a, (fun _ : String => DnsOutcome.success
          [["dnslink=/skynet-ns/x"], ["dnslink=/skynet-ns/y"]]) ("_dnslink." ++ "e.com")
        = .success a
      ∧ cacheFind (resolve (fun _ : String => DnsOutcome.success
            [["dnslink=/skynet-ns/x"], ["dnslink=/skynet-ns/y"]]) 300000 [] 0 "e.com" none).cache
          ("_dnslink." ++ "e.com") 7 = some a
      ∧ resolve (fun _ : String => DnsOutcome.success
            [["dnslink=/skynet-ns/x"], ["dnslink=/skynet-ns/y"]]) 300000
          ((resolve (fun _ : String => DnsOutcome.success
            [["dnslink=/skynet-ns/x"], ["dnslink=/skynet-ns/y"]]) 300000 [] 0 "e.com" none).cache)
          7 "e.com" none
        = ⟨.error (.multipleSkylinksError
            "Multiple TXT records with valid skynet dnslink found for _dnslink.e.com, only one allowed"),
           (resolve (fun _ : String => DnsOutcome.success
            [["dnslink=/skynet-ns/x"], ["dnslink=/skynet-ns/y"]]) 300000 [] 0 "e.com" none).cache,
           false⟩ :=
  classification_error_keeps_cache
    (fun _ : String => DnsOutcome.success [["dnslink=/skynet-ns/x"], ["dnslink=/skynet-ns/y"]])
    300000 [] 0 7 "e.com" none
    (.multipleSkylinksError
      "Multiple TXT records with valid skynet dnslink found for _dnslink.e.com, only one allowed")
    rfl rfl rfl (by decide)

/-! ## Arithmetic of the modelled base conversion -/

/-- `natDigitsBE` always emits exactly `k` digits. -/
theorem natDigitsBE_length (base : Nat) : ∀ (k n : Nat), (natDigitsBE base k n).length = k
  | 0, _ => rfl
  | k + 1, n => by simp [natDigitsBE, natDigitsBE_length base k]

/-- Every digit emitted by `natDigitsBE` is below the base. -/
theorem natDigitsBE_lt (base : Nat) (hb : 0 < base) :
    ∀ (k n : Nat), ∀ d ∈ natDigitsBE base k n, d < base
  | 0, n => by simp [natDigitsBE]
  | k + 1, n => by
    simp only [natDigitsBE, List.mem_append, List.mem_singleton]
    rintro d (hd | rfl)
    · exact natDigitsBE_lt base hb k (n / base) d hd
    · exact Nat.mod_lt _ hb

/-- Appending a final digit multiplies the value by the base. -/
theorem valueOfDigits_append_singleton (base : Nat) :
    ∀ (ds : List Nat) (d : Nat),
      valueOfDigits base (ds ++ [d]) = valueOfDigits base ds * base + d
  | [], d => by simp [valueOfDigits]
  | x :: ds, d => by
    show x * base ^ (ds ++ [d]).length + valueOfDigits base (ds ++ [d])
        = (x * base ^ ds.length + valueOfDigits base ds) * base + d
    rw [valueOfDigits_append_singleton base ds d, List.length_append,
      List.length_singleton]
    ring

/-- The emitted digits recover the value modulo `base ^ k`. -/
theorem valueOfDigits_natDigitsBE (base : Nat) (hb : 0 < base) :
    ∀ (k n : Nat), valueOfDigits base (natDigitsBE base k n) = n % base ^ k
  | 0, n => by simp [natDigitsBE, valueOfDigits, Nat.mod_one]
  | k + 1, n => by
    rw [natDigitsBE, valueOfDigits_append_singleton,
      valueOfDigits_natDigitsBE base hb k (n / base), pow_succ', Nat.mod_mul]
    ring

/-- The value of a digit string is below `base ^ length`. -/
theorem valueOfDigits_lt (base : Nat) :
    ∀ (ds : List Nat), (∀ d ∈ ds, d < base) →
      valueOfDigits base ds < base ^ ds.length
  | [], _ => by simp [valueOfDigits]
  | d :: ds, h => by
    simp only [valueOfDigits, List.length_cons]
    have h1 : d < base := h d (by simp)
    have h2 : valueOfDigits base ds < base ^ ds.length :=
      valueOfDigits_lt base ds (fun x hx => h x (by simp [hx]))
    calc d * base ^ ds.length + valueOfDigits base ds
        < d * base ^ ds.length + base ^ ds.length := by omega
      _ = (d + 1) * base ^ ds.length := by ring
      _ ≤ base * base ^ ds.length := Nat.mul_le_mul_right _ (by omega)
      _ = base ^ (ds.length + 1) := by rw [pow_succ']

/-- Fixed-length digit strings with digits below the base are determined by
their value. -/
theorem valueOfDigits_inj (base : Nat) :
    ∀ (ds es : List Nat), ds.length = es.length →
      (∀ d ∈ ds, d < base) → (∀ d ∈ es, d < base) →
      valueOfDigits base ds = valueOfDigits base es → ds = es
  | [], [], _, _, _, _ => rfl
  | [], _ :: _, h, _, _, _ => by simp at h
  | _ :: _, [], h, _, _, _ => by simp at h
  | d :: ds, e :: es, hlen, hd, he, heq => by
    simp only [List.length_cons, Nat.succ.injEq] at hlen
    have hbpos : 0 < base := Nat.lt_of_le_of_lt (Nat.zero_le d) (hd d (by simp))
    have hvd : valueOfDigits base ds < base ^ es.length := by
      rw [← hlen]
      exact valueOfDigits_lt base ds (fun x hx => hd x (by simp [hx]))
    have hve : valueOfDigits base es < base ^ es.length :=
      valueOfDigits_lt base es (fun x hx => he x (by simp [hx]))
    have hB : 0 < base ^ es.length := Nat.pos_pow_of_pos _ hbpos
    simp only [valueOfDigits, hlen] at heq
    have hde : d = e := by
      have e1 : (d * base ^ es.length + valueOfDigits base ds) / base ^ es.length = d := by
        rw [Nat.mul_comm d, Nat.mul_add_div hB, Nat.div_eq_of_lt hvd, Nat.add_zero]
      have e2 : (e * base ^ es.length + valueOfDigits base es) / base ^ es.length = e := by
        rw [Nat.mul_comm e, Nat.mul_add_div hB, Nat.div_eq_of_lt hve, Nat.add_zero]
      rw [← e1, ← e2, heq]
    subst hde
    have hveq : valueOfDigits base ds = valueOfDigits base es :=
      Nat.add_left_cancel heq
    rw [valueOfDigits_inj base ds es hlen (fun x hx => hd x (by simp [hx]))
      (fun x hx => he x (by simp [hx])) hveq]

/-- Every base32 digit value is below 32. -/
theorem b32CharVal_lt (c : Char) : b32CharVal c < 32 := by
  unfold b32CharVal
  split
  · rename_i h
    omega
  · split
    · rename_i h
      omega
    · omega

/-- On the base32 alphabet, the digit value determines the character. -/
theorem b32CharVal_inj {c d : Char} (hc : isSiaB32Char c = true)
    (hd : isSiaB32Char d = true) (h : b32CharVal c = b32CharVal d) : c = d := by
  simp only [isSiaB32Char, Bool.or_eq_true, Bool.and_eq_true, decide_eq_true_eq] at hc hd
  unfold b32CharVal at h
  have htoNat : c.toNat = d.toNat := by
    rcases hc with ⟨h1, h2⟩ | ⟨h1, h2⟩
    · rw [if_pos ⟨h1, h2⟩] at h
      rcases hd with ⟨h3, h4⟩ | ⟨h3, h4⟩
      · rw [if_pos ⟨h3, h4⟩] at h
        omega
      · rw [if_neg (by omega), if_pos ⟨h3, h4⟩] at h
        omega
    · rw [if_neg (by omega), if_pos ⟨h1, h2⟩] at h
      rcases hd with ⟨h3, h4⟩ | ⟨h3, h4⟩
      · rw [if_pos ⟨h3, h4⟩] at h
        omega
      · rw [if_neg (by omega), if_pos ⟨h3, h4⟩] at h
        omega
  have := congrArg Char.ofNat htoNat
  rwa [Char.ofNat_toNat, Char.ofNat_toNat] at this

/-- Characters of base32-alphabet strings are recovered from their digit
values. -/
theorem map_b32CharVal_inj :
    ∀ (s t : List Char), (∀ c ∈ s, isSiaB32Char c = true) →
      (∀ c ∈ t, isSiaB32Char c = true) →
      s.map b32CharVal = t.map b32CharVal → s = t
  | [], [], _, _, _ => rfl
  | [], _ :: _, _, _, h => by simp at h
  | _ :: _, [], _, _, h => by simp at h
  | c :: s, d :: t, hs, ht, h => by
    simp only [List.map_cons, List.cons.injEq] at h
    rw [b32CharVal_inj (hs c (by simp)) (ht d (by simp)) h.1,
      map_b32CharVal_inj s t (fun x hx => hs x (by simp [hx]))
        (fun x hx => ht x (by simp [hx])) h.2]

/-- The base64 digit table emits only base64-class characters. -/
theorem b64CharOf_isB64_fin : ∀ i : Fin 64, isB64Char (b64CharOf i.val) = true := by
  decide

/-- `b64CharOf` always emits a base64-class character. -/
theorem b64CharOf_isB64 (n : Nat) : isB64Char (b64CharOf n) = true := by
  have hlt : n % 64 < 64 := Nat.mod_lt _ (by decide)
  have hmm : b64CharOf (n % 64) = b64CharOf n := by
    unfold b64CharOf
    rw [Nat.mod_eq_of_lt hlt]
  rw [← hmm]
  exact b64CharOf_isB64_fin ⟨n % 64, hlt⟩

/-- The base64 digit table has no repeated characters. -/
theorem b64CharOf_inj_fin : ∀ i j : Fin 64, b64CharOf i.val = b64CharOf j.val → i = j := by
  decide

/-- `b64CharOf` is injective on digits below 64. -/
theorem b64CharOf_inj {m n : Nat} (hm : m < 64) (hn : n < 64)
    (h : b64CharOf m = b64CharOf n) : m = n :=
  congrArg Fin.val (b64CharOf_inj_fin ⟨m, hm⟩ ⟨n, hn⟩ h)

/-- Digit strings with digits below 64 are recovered from their rendered
characters. -/
theorem map_b64CharOf_inj :
    ∀ (xs ys : List Nat), (∀ x ∈ xs, x < 64) → (∀ y ∈ ys, y < 64) →
      xs.map b64CharOf = ys.map b64CharOf → xs = ys
  | [], [], _, _, _ => rfl
  | [], _ :: _, _, _, h => by simp at h
  | _ :: _, [], _, _, h => by simp at h
  | x :: xs, y :: ys, hx, hy, h => by
    simp only [List.map_cons, List.cons.injEq] at h
    rw [b64CharOf_inj (hx x (by simp)) (hy y (by simp)) h.1,
      map_b64CharOf_inj xs ys (fun a ha => hx a (by simp [ha]))
        (fun a ha => hy a (by simp [ha])) h.2]

/-- Characters of a string built from an explicit character list. -/
theorem data_mk (l : List Char) : (String.mk l).data = l := rfl

/-- Length of a string built from an explicit character list. -/
theorem length_mk (l : List Char) : (String.mk l).length = l.length := rfl

/-- Shape of the modelled conversion: the output is always 46 characters of
the base64 class. -/
theorem convertSkylinkToBase64_shape (s : String) :
    (convertSkylinkToBase64 s).length = 46
      ∧ (convertSkylinkToBase64 s).data.all isB64Char = true := by
  unfold convertSkylinkToBase64
  constructor
  · rw [length_mk]
    unfold convertedDigits
    rw [List.length_map, natDigitsBE_length]
  · rw [data_mk]
    unfold convertedDigits
    rw [List.all_eq_true]
    intro c hc
    rw [List.mem_map] at hc
    obtain ⟨x, -, rfl⟩ := hc
    exact b64CharOf_isB64 x

/-- The modelled conversion loses no information: canonical base32
identifiers are recovered from their base64 form. -/
theorem convertSkylinkToBase64_inj {s t : String}
    (hs : isCanonicalBase32 s = true) (ht : isCanonicalBase32 t = true)
    (h : convertSkylinkToBase64 s = convertSkylinkToBase64 t) : s = t := by
  simp only [isCanonicalBase32, Bool.and_eq_true, decide_eq_true_eq, beq_iff_eq,
    List.all_eq_true] at hs ht
  obtain ⟨⟨hs55, hsall⟩, hsmod⟩ := hs
  obtain ⟨⟨ht55, htall⟩, htmod⟩ := ht
  unfold convertSkylinkToBase64 at h
  have h' : (String.mk (convertedDigits s)).data
      = (String.mk (convertedDigits t)).data := congrArg String.data h
  rw [data_mk, data_mk] at h'
  unfold convertedDigits at h'
  have hdig := map_b64CharOf_inj _ _
    (fun x hx => natDigitsBE_lt 64 (by decide) 46 _ x hx)
    (fun x hx => natDigitsBE_lt 64 (by decide) 46 _ x hx) h'
  have hval := congrArg (valueOfDigits 64) hdig
  rw [valueOfDigits_natDigitsBE 64 (by decide),
    valueOfDigits_natDigitsBE 64 (by decide)] at hval
  have hchar_lt : ∀ (u : String), ∀ d ∈ u.data.map b32CharVal, d < 32 := by
    intro u d hd
    rw [List.mem_map] at hd
    obtain ⟨c, -, rfl⟩ := hd
    exact b32CharVal_lt c
  have hb1 : base32Value s.data < 32 ^ 55 := by
    unfold base32Value
    have hlt := valueOfDigits_lt 32 (s.data.map b32CharVal) (hchar_lt s)
    rwa [List.length_map, hs55] at hlt
  have hb2 : base32Value t.data < 32 ^ 55 := by
    unfold base32Value
    have hlt := valueOfDigits_lt 32 (t.data.map b32CharVal) (hchar_lt t)
    rwa [List.length_map, ht55] at hlt
  have hpow : (32 : Nat) ^ 55 = 2 ^ 272 * 8 := by norm_num
  have hpow' : (64 : Nat) ^ 46 = 2 ^ 272 * 16 := by norm_num
  have hx1 : base32Value s.data / 8 * 16 < 64 ^ 46 := by
    rw [hpow']
    rw [hpow] at hb1
    omega
  have hx2 : base32Value t.data / 8 * 16 < 64 ^ 46 := by
    rw [hpow']
    rw [hpow] at hb2
    omega
  rw [Nat.mod_eq_of_lt hx1, Nat.mod_eq_of_lt hx2] at hval
  have hV : base32Value s.data = base32Value t.data := by omega
  have hmap : s.data.map b32CharVal = t.data.map b32CharVal := by
    unfold base32Value at hV
    exact valueOfDigits_inj 32 _ _
      (by rw [List.length_map, List.length_map, hs55, ht55])
      (hchar_lt s) (hchar_lt t) hV
  have hdata := map_b32CharVal_inj s.data t.data hsall htall hmap
  cases s
  cases t
  exact congrArg String.mk hdata

/-- Inversion of a successful resolution: the returned skylink, when
present, is the normalization of an extracted identifier block. -/
theorem resolveRecords_ok_skylink {domain : String} {addresses : List (List String)}
    {uri : Option String} {res : ResolutionResult} {log : String}
    (hok : resolveRecords domain addresses uri = .ok (res, log)) :
    res.skylink = none
      ∨ ∃ sk0 : String, IsIdentifierBlock sk0.data
          ∧ res.skylink = some (normalizeSkylink sk0) := by
  simp only [resolveRecords] at hok
  split at hok
  · cases hok
  · split at hok
    · cases hok
    · split at hok
      · cases hok
      · unfold finishResolution at hok
        cases hE : extractSkylinkAndPath ("_dnslink." ++ domain)
            (List.filter dnslinkRegExpTest addresses.flatten) (uriMatchOf uri) uri with
        | error e =>
          rw [hE] at hok
          cases hok
        | ok p =>
          obtain ⟨sk0opt, path⟩ := p
          rw [hE] at hok
          injection hok with h'
          injection h' with hres hlog
          have hshape : sk0opt = none
              ∨ ∃ sk0 : String, IsIdentifierBlock sk0.data ∧ sk0opt = some sk0 := by
            unfold extractSkylinkAndPath at hE
            split at hE
            · split at hE
              · rename_i dnslink sk hdm
                injection hE with hE'
                injection hE' with h1 h2
                exact Or.inr ⟨sk, dnslinkSkylinkMatch_block hdm, h1.symm⟩
              · cases hE
            · split at hE
              · rename_i mm hmm
                injection hE with hE'
                injection hE' with h1 h2
                exact Or.inr ⟨mm.skylink, uriMatchOf_block hmm, h1.symm⟩
              · injection hE with hE'
                injection hE' with h1 h2
                exact Or.inl h1.symm
          rw [← hres]
          rcases hshape with rfl | ⟨sk0, hblock, rfl⟩
          · exact Or.inl rfl
          · exact Or.inr ⟨sk0, hblock, rfl⟩

/-- Claim C8: the resolved skylink is normalized before being returned —
every returned skylink is a 46-character base64-class string; the modelled
`convertSkylinkToBase64` (pure and deterministic as a function) is total on
55-character inputs, producing a 46-character base64-class string, and
loses no information on canonical base32 identifiers (it is injective
there). -/
theorem skylink_normalization_properties :
    (∀ (domain : String) (addresses : List (List String)) (uri : Option String)
        (res : ResolutionResult) (log : String) (sk : String),
      resolveRecords domain addresses uri = .ok (res, log) →
      res.skylink = some sk →
      sk.length = 46 ∧ sk.data.all isB64Char = true)
    ∧ (∀ s : String, s.length = 55 →
      (convertSkylinkToBase64 s).length = 46
        ∧ (convertSkylinkToBase64 s).data.all isB64Char = true)
    ∧ (∀ s t : String, isCanonicalBase32 s = true → isCanonicalBase32 t = true →
      convertSkylinkToBase64 s = convertSkylinkToBase64 t → s = t) := by
  refine ⟨?_, fun s _ => convertSkylinkToBase64_shape s,
    fun s t hs ht h => convertSkylinkToBase64_inj hs ht h⟩
  intro domain addresses uri res log sk hok hsk
  rcases resolveRecords_ok_skylink hok with hnone | ⟨sk0, hblock, hsome⟩
  · rw [hnone] at hsk
    cases hsk
  · rw [hsome] at hsk
    injection hsk with hsk'
    subst hsk'
    rcases hblock with ⟨h55, hall⟩ | ⟨h46, hall⟩
    · have hn : normalizeSkylink sk0 = convertSkylinkToBase64 sk0 := by
        unfold normalizeSkylink
        rw [if_pos (show sk0.length = 55 from h55)]
      rw [hn]
      exact convertSkylinkToBase64_shape sk0
    · have hn : normalizeSkylink sk0 = sk0 := by
        unfold normalizeSkylink
        rw [if_neg (show ¬ sk0.length = 55 from by
          show ¬ sk0.data.length = 55
          omega)]
      rw [hn]
      exact ⟨h46, List.all_eq_true.mpr hall⟩

/-- Witness for C8 at concrete inputs: the skylink returned for a valid DNS
record is 46 base64-class characters, and the conversion of a concrete
55-character base32 identifier has the canonical shape. -/
theorem skylink_normalization_witness :
    (("AQCYCPSmSMfmZjOKLX4zoYHHTNJQW2daVgZ2PTpkASFlSA" : String).length = 46
      ∧ ("AQCYCPSmSMfmZjOKLX4zoYHHTNJQW2daVgZ2PTpkASFlSA" : String).data.all isB64Char = true)
    ∧ ((convertSkylinkToBase64 "0h00000000000000000000000000000000000000000000000000000").length = 46
      ∧ (convertSkylinkToBase64 "0h00000000000000000000000000000000000000000000000000000").data.all isB64Char = true) :=
  ⟨skylink_normalization_properties.1 "example.com"
      [["dnslink=/skynet-ns/AQCYCPSmSMfmZjOKLX4zoYHHTNJQW2daVgZ2PTpkASFlSA"]] none
      ⟨some "AQCYCPSmSMfmZjOKLX4zoYHHTNJQW2daVgZ2PTpkASFlSA", none, none⟩
      "example.com => skylink: AQCYCPSmSMfmZjOKLX4zoYHHTNJQW2daVgZ2PTpkASFlSA | sponsor: undefined"
      "AQCYCPSmSMfmZjOKLX4zoYHHTNJQW2daVgZ2PTpkASFlSA" rfl rfl,
   skylink_normalization_properties.2.1
      "0h00000000000000000000000000000000000000000000000000000" rfl⟩

end DnslinkApi
